import Mathlib

/-
Verification of the handle layer (src/handle.rs): `HandleHost`, `Local`,
`Global`, `Weak` and the two-phase weak-finalization machinery.

Modelling conventions:
- Raw pointers are `Nat`; the value `0` stands for the null pointer, so a
  `NonNull` pointer is a `Nat` that the code never tests against zero.
- An `IsolateHandle` is reduced to the raw isolate pointer its
  `get_isolate_ptr()` currently returns (`0` once the isolate is disposed).
- Rust panics are modelled as `Except.error msg` carrying the panic message.
- Calls across the FFI boundary (`v8__Local__New`, `v8__Global__New`,
  `v8__Global__NewWeak`, `v8__Global__Reset`,
  `v8__WeakCallbackInfo__SetSecondPassCallback`) are recorded as `Event`s in
  an emitted trace; the addresses an engine entry point returns are inputs of
  the modelled functions, since the engine is an external collaborator.
- A finalizer `Box<dyn FnOnce()>` is an opaque token (`Nat` id); invoking it
  is recorded as an `Event.runFinalizer` with that id.
-/

namespace RustyV8

/-- Panic message of `HandleHost::match_host` (and of `get_unchecked` /
`Borrow for Global`) when a `HandleHost::DisposedIsolate` is involved. -/
def disposedMsg : String := "attempt to access Handle hosted by disposed Isolate"

/-- Panic message of `HandleHost::assert_match_host` on a host mismatch. -/
def mismatchMsg : String := "attempt to use Handle in an Isolate that is not its host"

/-- Panic message of `impl Hash for Global` on a disposed isolate. -/
def hashGlobalDisposedMsg : String :=
  "can't hash Global after its host Isolate has been disposed"

/-- Panic message of `impl Hash for Weak` on a disposed isolate. -/
def hashWeakDisposedMsg : String :=
  "can't hash Weak after its host Isolate has been disposed"

/-- Panic message of `Option::unwrap()` on `None` (the `.unwrap()` calls in
`Local::new` and `Weak::as_local`). -/
def unwrapMsg : String := "called Option::unwrap on a None value"

/-- Panic message of the `unreachable!()` arm in `Weak::first_pass_callback`. -/
def unreachableMsg : String := "internal error: entered unreachable code"

/-- `IsolateHandle`: a thread-safe weak handle to an isolate, reduced to the
raw pointer `get_isolate_ptr()` currently returns; `0` means the isolate has
been disposed. -/
structure IsolateHandle where
  ptr : Nat
deriving DecidableEq, Repr

/-- `enum HandleHost` from src/handle.rs. -/
inductive HandleHost where
  | Scope
  | Isolate (ptr : Nat)
  | DisposedIsolate
deriving DecidableEq, Repr

/-- `impl From<&IsolateHandle> for HandleHost`: `Isolate` if the raw pointer
is non-null, else `DisposedIsolate`. -/
def HandleHost.of_isolate_handle (h : IsolateHandle) : HandleHost :=
  if h.ptr = 0 then HandleHost.DisposedIsolate else HandleHost.Isolate h.ptr

/-- `HandleHost::match_host`, including its panic on `DisposedIsolate`
operands; arms in the source order. -/
def HandleHost.match_host (self other : HandleHost) (scope_isolate_opt : Option Nat) :
    Except String Bool :=
  match self, other, scope_isolate_opt with
  | HandleHost.Scope, HandleHost.Scope, _ => Except.ok true
  | HandleHost.Isolate ile1, HandleHost.Isolate ile2, _ => Except.ok (ile1 == ile2)
  | HandleHost.Scope, HandleHost.Isolate ile1, some ile2 => Except.ok (ile1 == ile2)
  | HandleHost.Isolate ile1, HandleHost.Scope, some ile2 => Except.ok (ile1 == ile2)
  | HandleHost.Scope, HandleHost.Isolate _, none => Except.ok true
  | HandleHost.Isolate _, HandleHost.Scope, none => Except.ok true
  | HandleHost.DisposedIsolate, _, _ => Except.error disposedMsg
  | _, HandleHost.DisposedIsolate, _ => Except.error disposedMsg

/-- `HandleHost::assert_match_host`: panics with the mismatch message when
`match_host` returns false (and propagates the disposed-isolate panic). -/
def HandleHost.assert_match_host (self other : HandleHost) (scope_opt : Option Nat) :
    Except String Unit :=
  match self.match_host other scope_opt with
  | Except.error e => Except.error e
  | Except.ok true => Except.ok ()
  | Except.ok false => Except.error mismatchMsg

/-- `HandleHost::assert_match_isolate`: the other host is
`HandleHost::Isolate(isolate)` and the scope hint is that same isolate. -/
def HandleHost.assert_match_isolate (self : HandleHost) (isolate : Nat) :
    Except String Unit :=
  self.assert_match_host (HandleHost.Isolate isolate) (some isolate)

/-- `HandleInfo`: the data pointer and host recorded in a handle. -/
structure HandleInfo where
  data : Nat
  host : HandleHost
deriving DecidableEq, Repr

/-- Trace events for the engine entry points the handle layer calls, plus
finalizer invocation. -/
inductive Event where
  | localNew (isolate data : Nat)
  | globalNew (isolate data : Nat)
  | globalNewWeak (isolate data : Nat)
  | globalReset (data : Nat)
  | setSecondPassCallback
  | runFinalizer (f : Nat)
deriving DecidableEq, Repr

/-- Modelled from the spec: the transient-scope collaborator's `cast_local`
(from the handle-scope module, which is not part of the handle layer's
sources): it runs the underlying mint call and produces a typed transient
reference, or reports failure (`none`) if the resulting address is null. -/
def castLocal (addr : Nat) : Option Nat :=
  if addr = 0 then none else some addr

/-- `Local::new(scope, handle)`: reads the handle info, asserts the host
matches the scope's isolate, mints a transient address via `v8__Local__New`
through `cast_local`, then calls `.unwrap()` on the resulting `Option`.
`mintResult` is the address `v8__Local__New` returns (`0` = null). -/
def Local.new (scopeIsolate : Nat) (handleInfo : HandleInfo) (mintResult : Nat) :
    Except String (Nat × List Event) :=
  match handleInfo.host.assert_match_isolate scopeIsolate with
  | Except.error e => Except.error e
  | Except.ok _ =>
    match castLocal mintResult with
    | some addr => Except.ok (addr, [Event.localNew scopeIsolate handleInfo.data])
    | none => Except.error unwrapMsg

/-- `struct Global<T>`: the storage-cell address and the thread-safe weak
handle to the owning isolate. -/
structure Global where
  data : Nat
  isolate_handle : IsolateHandle
deriving DecidableEq, Repr

/-- `Global::new_raw`: registers the address via `v8__Global__New` and
captures the isolate's thread-safe handle. `registerResult` is the address
the engine returns (non-null per contract). -/
def Global.new_raw (isolate : Nat) (registerResult : Nat) (data : Nat) :
    Global × List Event :=
  (⟨registerResult, ⟨isolate⟩⟩, [Event.globalNew isolate data])

/-- `Global::new(isolate, handle)`: asserts the host matches the isolate,
then registers via `new_raw`. -/
def Global.new (isolate : Nat) (handleInfo : HandleInfo) (registerResult : Nat) :
    Except String (Global × List Event) :=
  match handleInfo.host.assert_match_isolate isolate with
  | Except.error e => Except.error e
  | Except.ok _ => Except.ok (Global.new_raw isolate registerResult handleInfo.data)

/-- `impl Drop for Global`: skip `v8__Global__Reset` when the isolate handle
reports the isolate disposed (null pointer), otherwise reset the cell. -/
def Global.drop (g : Global) : List Event :=
  if g.isolate_handle.ptr = 0 then [] else [Event.globalReset g.data]

/-- `Handle::open` as implemented for `Global`: assert the host matches the
isolate, then dereference the data pointer. -/
def Global.open_handle (g : Global) (isolate : Nat) : Except String Nat :=
  match (HandleHost.of_isolate_handle g.isolate_handle).assert_match_isolate isolate with
  | Except.error e => Except.error e
  | Except.ok _ => Except.ok g.data

/-- `impl Hash for Global`: panics when the isolate handle is null, else
hashes the referenced value (`hashFn` models `T::hash` on the pointee). -/
def Global.hash (g : Global) (hashFn : Nat → Nat) : Except String Nat :=
  if g.isolate_handle.ptr = 0 then Except.error hashGlobalDisposedMsg
  else Except.ok (hashFn g.data)

/-- `impl PartialEq<Rhs> for Global`: `match_host(other, None)` (may panic on
a disposed operand), then compare referenced values; `veq` models
`T::eq` on the pointees. Rust `&&` short-circuits, so the values are not
read when the hosts do not match. -/
def Global.eq_handle (veq : Nat → Nat → Bool) (g : Global) (other : HandleInfo) :
    Except String Bool :=
  match (HandleHost.of_isolate_handle g.isolate_handle).match_host other.host none with
  | Except.error e => Except.error e
  | Except.ok m => if m then Except.ok (veq g.data other.data) else Except.ok false

/-- `impl PartialEq<Rhs: Handle> for Local`: the receiver's recorded host is
`HandleHost::Scope`; `match_host(other, None)` (may panic on a disposed
operand), then compare referenced values; Rust `&&` short-circuits, so the
values are not read when the hosts do not match. -/
def Local.eq_handle (veq : Nat → Nat → Bool) (selfData : Nat) (other : HandleInfo) :
    Except String Bool :=
  match HandleHost.Scope.match_host other.host none with
  | Except.error e => Except.error e
  | Except.ok m => if m then Except.ok (veq selfData other.data) else Except.ok false

/-- `struct WeakData<T>`: the pinned side record; `pointer` and `finalizer`
are the two `Cell`s. The finalizer is an opaque token id. -/
structure WeakData where
  pointer : Option Nat
  finalizer : Option Nat
deriving DecidableEq, Repr

/-- `struct Weak<T>`: optional pinned side record plus the thread-safe
isolate handle. -/
structure Weak where
  data : Option WeakData
  isolate_handle : IsolateHandle
deriving DecidableEq, Repr

/-- `Weak::new_raw`: allocate the side record (pointer unset, finalizer
stored), register via `v8__Global__NewWeak`, then store the returned address
into the record's pointer slot. `registerResult` is the address the engine
returns. -/
def Weak.new_raw (isolate : IsolateHandle) (data : Nat) (finalizer : Option Nat)
    (registerResult : Nat) : Weak × List Event :=
  (⟨some ⟨some registerResult, finalizer⟩, isolate⟩,
    [Event.globalNewWeak isolate.ptr data])

/-- `Weak::new(isolate, handle)`: assert host match, then `new_raw` with no
finalizer. -/
def Weak.new (isolate : Nat) (handleInfo : HandleInfo) (registerResult : Nat) :
    Except String (Weak × List Event) :=
  match handleInfo.host.assert_match_isolate isolate with
  | Except.error e => Except.error e
  | Except.ok _ => Except.ok (Weak.new_raw ⟨isolate⟩ handleInfo.data none registerResult)

/-- `Weak::with_finalizer(isolate, handle, finalizer)`: assert host match,
then `new_raw` with the finalizer stored. -/
def Weak.with_finalizer (isolate : Nat) (handleInfo : HandleInfo) (finalizer : Nat)
    (registerResult : Nat) : Except String (Weak × List Event) :=
  match handleInfo.host.assert_match_isolate isolate with
  | Except.error e => Except.error e
  | Except.ok _ =>
    Except.ok (Weak.new_raw ⟨isolate⟩ handleInfo.data (some finalizer) registerResult)

/-- `Weak::empty(isolate)`: no side record, only the isolate handle. -/
def Weak.empty (isolate : Nat) : Weak :=
  ⟨none, ⟨isolate⟩⟩

/-- `Weak::get_pointer`: the record's pointer slot, if a record exists. -/
def Weak.get_pointer (w : Weak) : Option Nat :=
  w.data.bind (fun d => d.pointer)

/-- `Weak::is_empty`: true iff `get_pointer` is `None`. -/
def Weak.is_empty (w : Weak) : Bool :=
  w.get_pointer.isNone

/-- `Weak::clone_raw`: if bound, re-register the current address with a fresh
side record carrying the supplied finalizer; if empty, an empty `Weak` with
no engine call. -/
def Weak.clone_raw (w : Weak) (finalizer : Option Nat) (registerResult : Nat) :
    Weak × List Event :=
  match w.get_pointer with
  | some data => Weak.new_raw w.isolate_handle data finalizer registerResult
  | none => (⟨none, w.isolate_handle⟩, [])

/-- `impl Clone for Weak`: `clone_raw(None)`. -/
def Weak.clone (w : Weak) (registerResult : Nat) : Weak × List Event :=
  w.clone_raw none registerResult

/-- `Weak::clone_with_finalizer(f)`: `clone_raw(Some(f))`. -/
def Weak.clone_with_finalizer (w : Weak) (finalizer : Nat) (registerResult : Nat) :
    Weak × List Event :=
  w.clone_raw (some finalizer) registerResult

/-- `Weak::open(isolate)`: `None` when unbound; otherwise assert host match
and borrow the pointee. -/
def Weak.open_handle (w : Weak) (isolate : Nat) : Except String (Option Nat) :=
  match w.get_pointer with
  | some data =>
    match (HandleHost.of_isolate_handle w.isolate_handle).assert_match_isolate isolate with
    | Except.error e => Except.error e
    | Except.ok _ => Except.ok (some data)
  | none => Except.ok none

/-- `Weak::as_local(scope)`: `None` when unbound; otherwise assert host
match, mint a transient address via `v8__Local__New` through `cast_local`,
and `.unwrap()` the result. `mintResult` is what `v8__Local__New` returns. -/
def Weak.as_local (w : Weak) (scopeIsolate : Nat) (mintResult : Nat) :
    Except String (Option Nat × List Event) :=
  match w.get_pointer with
  | some data =>
    match (HandleHost.of_isolate_handle w.isolate_handle).assert_match_isolate scopeIsolate with
    | Except.error e => Except.error e
    | Except.ok _ =>
      match castLocal mintResult with
      | some addr => Except.ok (some addr, [Event.localNew scopeIsolate data])
      | none => Except.error unwrapMsg
  | none => Except.ok (none, [])

/-- `impl Hash for Weak`: panics when the isolate handle is null; otherwise
hashes the pointee when bound (`some`), and hashes nothing when empty. -/
def Weak.hash (w : Weak) (hashFn : Nat → Nat) : Except String (Option Nat) :=
  if w.isolate_handle.ptr = 0 then Except.error hashWeakDisposedMsg
  else
    match w.get_pointer with
    | some data => Except.ok (some (hashFn data))
    | none => Except.ok none

/-- `impl PartialEq<Rhs: Handle> for Weak`: false when hosts mismatch (panic
on a disposed operand); false when self is empty; else compare pointees. -/
def Weak.eq_handle (veq : Nat → Nat → Bool) (w : Weak) (other : HandleInfo) :
    Except String Bool :=
  match (HandleHost.of_isolate_handle w.isolate_handle).match_host other.host none with
  | Except.error e => Except.error e
  | Except.ok m =>
    if !m then Except.ok false
    else
      match w.get_pointer with
      | some selfData => Except.ok (veq selfData other.data)
      | none => Except.ok false

/-- `impl PartialEq<Weak<T2>> for Weak<T>`: false when hosts mismatch (panic
on a disposed operand); both bound → compare pointees; both empty → true;
otherwise false. -/
def Weak.eq_weak (veq : Nat → Nat → Bool) (w1 w2 : Weak) : Except String Bool :=
  match (HandleHost.of_isolate_handle w1.isolate_handle).match_host
      (HandleHost.of_isolate_handle w2.isolate_handle) none with
  | Except.error e => Except.error e
  | Except.ok m =>
    if !m then Except.ok false
    else
      match w1.get_pointer, w2.get_pointer with
      | some d1, some d2 => Except.ok (veq d1 d2)
      | none, none => Except.ok true
      | _, _ => Except.ok false

/-- `Weak::first_pass_callback`: take the address out of the pointer slot
(`unreachable!()` if absent), `v8__Global__Reset` it, and if a finalizer is
present put it back and register the second-pass callback. Returns the
updated side record and the emitted engine calls. -/
def Weak.first_pass_callback (wd : WeakData) : Except String (WeakData × List Event) :=
  match wd.pointer with
  | some data =>
    match wd.finalizer with
    | some f =>
      Except.ok (⟨none, some f⟩, [Event.globalReset data, Event.setSecondPassCallback])
    | none => Except.ok (⟨none, none⟩, [Event.globalReset data])
  | none => Except.error unreachableMsg

/-- `Weak::second_pass_callback`: take the finalizer out of its slot and
invoke it; do nothing when the slot is empty. -/
def Weak.second_pass_callback (wd : WeakData) : WeakData × List Event :=
  match wd.finalizer with
  | some f => (⟨wd.pointer, none⟩, [Event.runFinalizer f])
  | none => (wd, [])

/-- `impl Drop for Weak`: skip everything when the isolate handle is null;
otherwise `v8__Global__Reset` the cell iff the pointer slot is still
occupied. -/
def Weak.drop (w : Weak) : List Event :=
  if w.isolate_handle.ptr = 0 then []
  else
    match w.get_pointer with
    | some data => [Event.globalReset data]
    | none => []

/-- The spec's description of `match_host` on non-disposed operands, stated
from its words: true iff both resolve to the same live instance, with the
permissive fallback (either operand scope-bound with no hint → true; two
scope-bound operands → true; a scope-bound operand is matched against the
hint when one is supplied). For comparison against
`HandleHost.match_host`. -/
def matchSpecC4 (h1 h2 : HandleHost) (hint : Option Nat) : Bool :=
  match h1, h2, hint with
  | HandleHost.Scope, HandleHost.Scope, _ => true
  | HandleHost.Isolate i, HandleHost.Isolate j, _ => i == j
  | HandleHost.Scope, HandleHost.Isolate j, some c => j == c
  | HandleHost.Isolate i, HandleHost.Scope, some c => i == c
  | HandleHost.Scope, HandleHost.Isolate _, none => true
  | HandleHost.Isolate _, HandleHost.Scope, none => true
  | _, _, _ => false

/-- State of one weak registration together with its engine-side bookkeeping,
for lifecycle reasoning across the host's drop and the engine's two callback
phases. `cellRegistered` is whether the storage cell created by
`v8__Global__NewWeak` is still registered (i.e. not yet `v8__Global__Reset`);
`pointer`/`finalizer` are the side record's slots; `secondScheduled` is
whether `v8__WeakCallbackInfo__SetSecondPassCallback` has scheduled the
second phase; `ranFinalizer` records whether the finalizer has been
invoked. -/
structure WeakSys where
  cellRegistered : Bool
  pointer : Option Nat
  finalizer : Option Nat
  weakDropped : Bool
  secondScheduled : Bool
  disposed : Bool
  ranFinalizer : Bool
deriving DecidableEq, Repr

/-- The state right after `Weak::with_finalizer` succeeds: cell registered,
pointer slot set to the registered address `d`, finalizer `f` stored. -/
def weakSysInit (d f : Nat) : WeakSys :=
  ⟨true, some d, some f, false, false, false, false⟩

/-- Operations on a weak registration: the host dropping the `Weak`, the
engine firing the first- or second-phase callback, and disposal of the
isolate. -/
inductive SysOp where
  | hostDrop
  | enginePhase1
  | enginePhase2
  | disposeInstance
deriving DecidableEq, Repr

/-- One step of the weak-registration lifecycle. The host-side arms follow
`impl Drop for Weak`, `Weak::first_pass_callback` and
`Weak::second_pass_callback`. The guards on the engine arms are
modelled from the spec: the engine fires the first-phase callback only for a
registration whose storage cell is still registered ("finalization callbacks
are tied to the lifetime of a Weak and will not be called after the Weak is
dropped"), fires the second phase only when it was scheduled, and fires no
callback at all once the isolate is disposed. -/
def sysStep (s : WeakSys) (op : SysOp) : WeakSys :=
  match op with
  | SysOp.hostDrop =>
    if s.weakDropped then s
    else
      let s1 := { s with weakDropped := true }
      if s1.disposed then s1
      else
        match s1.pointer with
        | some _ => { s1 with cellRegistered := false }
        | none => s1
  | SysOp.enginePhase1 =>
    if s.cellRegistered && !s.disposed then
      match s.pointer with
      | some _ =>
        let s1 := { s with pointer := none, cellRegistered := false }
        if s1.finalizer.isSome then { s1 with secondScheduled := true } else s1
      | none => s
    else s
  | SysOp.enginePhase2 =>
    if s.secondScheduled && !s.disposed then
      match s.finalizer with
      | some _ =>
        { s with finalizer := none, secondScheduled := false, ranFinalizer := true }
      | none => { s with secondScheduled := false }
    else s
  | SysOp.disposeInstance => { s with disposed := true }

/-- Run a sequence of lifecycle operations. -/
def sysRun (s : WeakSys) (ops : List SysOp) : WeakSys :=
  ops.foldl sysStep s

/-- Whether an event is a finalizer invocation. -/
def Event.isRunFinalizer : Event → Bool
  | Event.runFinalizer _ => true
  | _ => false

/-- Whether an event is a storage-cell reset. -/
def Event.isGlobalReset : Event → Bool
  | Event.globalReset _ => true
  | _ => false

/-- Helper: a single lifecycle step preserves the dead-registration state
(cell no longer registered, no second phase scheduled, finalizer not run). -/
theorem sysStep_preserves (s : WeakSys) (op : SysOp)
    (h1 : s.cellRegistered = false) (h2 : s.secondScheduled = false)
    (h3 : s.ranFinalizer = false) :
    (sysStep s op).cellRegistered = false
    ∧ (sysStep s op).secondScheduled = false
    ∧ (sysStep s op).ranFinalizer = false := by
  cases op with
  | hostDrop =>
    simp only [sysStep]
    split
    · exact ⟨h1, h2, h3⟩
    · split
      · exact ⟨h1, h2, h3⟩
      · split
        · exact ⟨rfl, h2, h3⟩
        · exact ⟨h1, h2, h3⟩
  | enginePhase1 => simp [sysStep, h1, h2, h3]
  | enginePhase2 => simp [sysStep, h1, h2, h3]
  | disposeInstance => simp [sysStep, h1, h2, h3]

/-- Helper: once the storage cell is no longer registered, no second phase is
scheduled and the finalizer has not run, no sequence of lifecycle operations
can ever run the finalizer. -/
theorem sysRun_no_finalizer (ops : List SysOp) : ∀ s : WeakSys,
    s.cellRegistered = false → s.secondScheduled = false → s.ranFinalizer = false →
    (sysRun s ops).ranFinalizer = false := by
  induction ops with
  | nil => intro s _ _ h3; exact h3
  | cons op rest ih =>
    intro s h1 h2 h3
    show (sysRun (sysStep s op) rest).ranFinalizer = false
    have h := sysStep_preserves s op h1 h2 h3
    exact ih (sysStep s op) h.1 h.2.1 h.2.2

/-- C1: constructing a `Local` (via `Local::new` with a scope of a different
isolate), a `Global` (via `Global::new`), or a `Weak` (via `Weak::new` or
`Weak::with_finalizer`) from a source handle whose recorded host isolate `j`
differs from the supplied isolate/scope isolate `i` panics with the
host-mismatch message, whatever addresses the engine would have returned. -/
theorem c1_host_mismatch_panics (i j d mint reg f : Nat) (h : i ≠ j) :
    Local.new i ⟨d, HandleHost.Isolate j⟩ mint = Except.error mismatchMsg
    ∧ Global.new i ⟨d, HandleHost.Isolate j⟩ reg = Except.error mismatchMsg
    ∧ Weak.new i ⟨d, HandleHost.Isolate j⟩ reg = Except.error mismatchMsg
    ∧ Weak.with_finalizer i ⟨d, HandleHost.Isolate j⟩ f reg
        = Except.error mismatchMsg := by
  have hb : (j == i) = false := by
    simp only [beq_eq_false_iff_ne]
    exact fun hji => h hji.symm
  refine ⟨?_, ?_, ?_, ?_⟩ <;>
    simp [Local.new, Global.new, Weak.new, Weak.with_finalizer,
      HandleHost.assert_match_isolate, HandleHost.assert_match_host,
      HandleHost.match_host, hb]

/-- C1 witness: concrete host mismatch (isolate 1 supplied, isolate 2
recorded). -/
theorem c1_host_mismatch_panics_witness :
    (1 : Nat) ≠ 2
    ∧ (Local.new 1 ⟨3, HandleHost.Isolate 2⟩ 4 = Except.error mismatchMsg
      ∧ Global.new 1 ⟨3, HandleHost.Isolate 2⟩ 5 = Except.error mismatchMsg
      ∧ Weak.new 1 ⟨3, HandleHost.Isolate 2⟩ 5 = Except.error mismatchMsg
      ∧ Weak.with_finalizer 1 ⟨3, HandleHost.Isolate 2⟩ 6 5
          = Except.error mismatchMsg) :=
  ⟨by decide, c1_host_mismatch_panics 1 2 3 4 5 6 (by decide)⟩

/-- C2 counterexample: a null address from the mint-transient entry point
(`v8__Local__New`) during `Local::new` and during `Weak::as_local` on a bound
`Weak` is NOT returned as absence: both call sites `.unwrap()` the `Option`
and panic. -/
theorem c2_null_mint_counterexample :
    Local.new 1 ⟨5, HandleHost.Isolate 1⟩ 0 = Except.error unwrapMsg
    ∧ Weak.as_local ⟨some ⟨some 5, none⟩, ⟨1⟩⟩ 1 0 = Except.error unwrapMsg :=
  ⟨rfl, rfl⟩

/-- C2 (amended): a null result from the mint-transient entry point during
`Local::new` or `Weak::as_local` on a bound `Weak` surfaces as a panic
(`Option::unwrap` on `None`); "no value" (`None`) is returned only for the
empty-`Weak` paths (`Weak::as_local` / `Weak::open` when the pointer slot is
unset), which make no engine call at all. -/
theorem c2_null_mint_panics (i d : Nat) (hi : i ≠ 0) :
    Local.new i ⟨d, HandleHost.Isolate i⟩ 0 = Except.error unwrapMsg
    ∧ Weak.as_local ⟨some ⟨some d, none⟩, ⟨i⟩⟩ i 0 = Except.error unwrapMsg
    ∧ (∀ w : Weak, w.get_pointer = none →
        w.as_local i 0 = Except.ok (none, []) ∧ w.open_handle i = Except.ok none) := by
  refine ⟨?_, ?_, fun w hw => ⟨?_, ?_⟩⟩
  · simp [Local.new, HandleHost.assert_match_isolate, HandleHost.assert_match_host,
      HandleHost.match_host, castLocal]
  · simp [Weak.as_local, Weak.get_pointer, HandleHost.of_isolate_handle, hi,
      HandleHost.assert_match_isolate, HandleHost.assert_match_host,
      HandleHost.match_host, castLocal]
  · simp [Weak.as_local, hw]
  · simp [Weak.open_handle, hw]

/-- C2 amended witness: concrete instances at isolate 1. -/
theorem c2_null_mint_panics_witness :
    (1 : Nat) ≠ 0
    ∧ (Local.new 1 ⟨5, HandleHost.Isolate 1⟩ 0 = Except.error unwrapMsg
      ∧ Weak.as_local ⟨some ⟨some 5, none⟩, ⟨1⟩⟩ 1 0 = Except.error unwrapMsg
      ∧ (∀ w : Weak, w.get_pointer = none →
          w.as_local 1 0 = Except.ok (none, [])
          ∧ w.open_handle 1 = Except.ok none)) :=
  ⟨by decide, c2_null_mint_panics 1 5 (by decide)⟩

/-- C3 counterexample: opening an empty `Weak` whose host isolate has been
disposed does not panic — `Weak::open` checks the pointer slot first and
returns `None` without any host check. -/
theorem c3_counterexample :
    HandleHost.of_isolate_handle (⟨0⟩ : IsolateHandle) = HandleHost.DisposedIsolate
    ∧ Weak.open_handle ⟨none, ⟨0⟩⟩ 1 = Except.ok none :=
  ⟨rfl, rfl⟩

/-- C3 (amended): for every `Global` or `Weak` whose recorded host isolate is
disposed (null isolate pointer), hashing panics with the dedicated disposal
message, equality comparison (in either operand position, against any handle)
panics with the disposal message, and opening panics with the disposal
message — except that opening an empty `Weak` returns `None` without a host
check. All disposal messages are distinct from the host-mismatch message.
(A `Local` records `HandleHost::Scope`, never a disposed host.) -/
theorem c3_disposed_access (g : Global) (w : Weak) (other : HandleInfo)
    (veq : Nat → Nat → Bool) (hashFn : Nat → Nat) (isolate d : Nat)
    (hg : g.isolate_handle.ptr = 0) (hw : w.isolate_handle.ptr = 0) :
    Global.hash g hashFn = Except.error hashGlobalDisposedMsg
    ∧ Weak.hash w hashFn = Except.error hashWeakDisposedMsg
    ∧ Global.eq_handle veq g other = Except.error disposedMsg
    ∧ Weak.eq_handle veq w other = Except.error disposedMsg
    ∧ Weak.eq_weak veq w w = Except.error disposedMsg
    ∧ Global.open_handle g isolate = Except.error disposedMsg
    ∧ (w.get_pointer = some d → w.open_handle isolate = Except.error disposedMsg)
    ∧ (w.get_pointer = none → w.open_handle isolate = Except.ok none)
    ∧ (∀ g2 : Global, g2.isolate_handle.ptr ≠ 0 →
        Global.eq_handle veq g2 ⟨d, HandleHost.DisposedIsolate⟩
          = Except.error disposedMsg)
    ∧ (∀ w2 : Weak, w2.isolate_handle.ptr ≠ 0 →
        Weak.eq_handle veq w2 ⟨d, HandleHost.DisposedIsolate⟩
            = Except.error disposedMsg
        ∧ Weak.eq_weak veq w2 w = Except.error disposedMsg)
    ∧ (∀ d2 : Nat, Local.eq_handle veq d2 ⟨d, HandleHost.DisposedIsolate⟩
        = Except.error disposedMsg)
    ∧ disposedMsg ≠ mismatchMsg
    ∧ hashGlobalDisposedMsg ≠ mismatchMsg
    ∧ hashWeakDisposedMsg ≠ mismatchMsg := by
  refine ⟨?_, ?_, ?_, ?_, ?_, ?_, fun hp => ?_, fun hp => ?_,
    fun g2 h2 => ?_, fun w2 h2 => ⟨?_, ?_⟩, fun d2 => ?_, ?_, ?_, ?_⟩
  · simp [Global.hash, hg]
  · simp [Weak.hash, hw]
  · simp [Global.eq_handle, HandleHost.of_isolate_handle, hg, HandleHost.match_host]
  · simp [Weak.eq_handle, HandleHost.of_isolate_handle, hw, HandleHost.match_host]
  · simp [Weak.eq_weak, HandleHost.of_isolate_handle, hw, HandleHost.match_host]
  · simp [Global.open_handle, HandleHost.of_isolate_handle, hg,
      HandleHost.assert_match_isolate, HandleHost.assert_match_host,
      HandleHost.match_host]
  · simp [Weak.open_handle, hp, HandleHost.of_isolate_handle, hw,
      HandleHost.assert_match_isolate, HandleHost.assert_match_host,
      HandleHost.match_host]
  · simp [Weak.open_handle, hp]
  · simp [Global.eq_handle, HandleHost.of_isolate_handle, h2, HandleHost.match_host]
  · simp [Weak.eq_handle, HandleHost.of_isolate_handle, h2, HandleHost.match_host]
  · simp [Weak.eq_weak, HandleHost.of_isolate_handle, h2, hw, HandleHost.match_host]
  · simp [Local.eq_handle, HandleHost.match_host]
  · decide
  · decide
  · decide

/-- C3 amended witness: a concrete disposed `Global` and bound/empty disposed
`Weak`. -/
theorem c3_disposed_access_witness :
    (⟨5, ⟨0⟩⟩ : Global).isolate_handle.ptr = 0
    ∧ (⟨none, ⟨0⟩⟩ : Weak).isolate_handle.ptr = 0
    ∧ (⟨5, ⟨1⟩⟩ : Global).isolate_handle.ptr ≠ 0
    ∧ Global.hash ⟨5, ⟨0⟩⟩ id = Except.error hashGlobalDisposedMsg
    ∧ Weak.open_handle ⟨none, ⟨0⟩⟩ 3 = Except.ok none
    ∧ Global.eq_handle (fun a b => a == b) ⟨5, ⟨1⟩⟩ ⟨4, HandleHost.DisposedIsolate⟩
        = Except.error disposedMsg :=
  ⟨rfl, rfl, by decide,
    (c3_disposed_access ⟨5, ⟨0⟩⟩ ⟨none, ⟨0⟩⟩ ⟨7, HandleHost.Scope⟩
      (fun a b => a == b) id 3 4 rfl rfl).1,
    (c3_disposed_access ⟨5, ⟨0⟩⟩ ⟨none, ⟨0⟩⟩ ⟨7, HandleHost.Scope⟩
      (fun a b => a == b) id 3 4 rfl rfl).2.2.2.2.2.2.2.1 rfl,
    (c3_disposed_access ⟨5, ⟨0⟩⟩ ⟨none, ⟨0⟩⟩ ⟨7, HandleHost.Scope⟩
      (fun a b => a == b) id 3 4 rfl rfl).2.2.2.2.2.2.2.2.1 ⟨5, ⟨1⟩⟩ (by decide)⟩

/-- C4: on non-disposed operands, `HandleHost::match_host` computes exactly
the behavior the spec describes (`matchSpecC4`): same live instance compared
by identity; two scope-bound operands true; a scope-bound operand matched
against the hint when supplied; permissively true when a scope-bound operand
has no hint. -/
theorem c4_match_host_spec (h1 h2 : HandleHost) (hint : Option Nat)
    (n1 : h1 ≠ HandleHost.DisposedIsolate) (n2 : h2 ≠ HandleHost.DisposedIsolate) :
    h1.match_host h2 hint = Except.ok (matchSpecC4 h1 h2 hint) := by
  cases h1 <;> cases h2 <;> cases hint <;>
    simp_all [HandleHost.match_host, matchSpecC4]

/-- C4 witness: a scope-bound operand against a live instance with no hint. -/
theorem c4_match_host_spec_witness :
    HandleHost.Scope ≠ HandleHost.DisposedIsolate
    ∧ HandleHost.Isolate 1 ≠ HandleHost.DisposedIsolate
    ∧ HandleHost.match_host HandleHost.Scope (HandleHost.Isolate 1) none
        = Except.ok (matchSpecC4 HandleHost.Scope (HandleHost.Isolate 1) none) :=
  ⟨by decide, by decide,
    c4_match_host_spec HandleHost.Scope (HandleHost.Isolate 1) none
      (by decide) (by decide)⟩

/-- C5: `Weak::first_pass_callback` takes the address out of the pointer slot
(panicking via `unreachable!()` when the slot is empty), resets the storage
cell, and registers the second-phase callback iff a finalizer is present,
putting the finalizer back in its slot; with no finalizer, no second phase is
registered. -/
theorem c5_first_pass_callback (wd : WeakData) :
    Weak.first_pass_callback wd =
      match wd.pointer with
      | none => Except.error unreachableMsg
      | some d =>
        Except.ok (⟨none, wd.finalizer⟩,
          Event.globalReset d ::
            (if wd.finalizer.isSome then [Event.setSecondPassCallback] else [])) := by
  obtain ⟨p, fz⟩ := wd
  cases p <;> cases fz <;> simp [Weak.first_pass_callback]

/-- C6: the finalizer runs at most once: two consecutive second-phase
invocations produce at most one finalizer run in total; a second-phase
invocation finding the slot empty changes nothing and runs nothing; and the
host's drop path (`impl Drop for Weak`) never runs a finalizer. -/
theorem c6_finalizer_at_most_once (wd : WeakData) (w : Weak) :
    ((Weak.second_pass_callback wd).2
        ++ (Weak.second_pass_callback (Weak.second_pass_callback wd).1).2).countP
        Event.isRunFinalizer ≤ 1
    ∧ (wd.finalizer = none → Weak.second_pass_callback wd = (wd, []))
    ∧ (Weak.drop w).countP Event.isRunFinalizer = 0 := by
  refine ⟨?_, fun h => ?_, ?_⟩
  · obtain ⟨p, fz⟩ := wd
    cases fz <;> simp [Weak.second_pass_callback, Event.isRunFinalizer]
  · obtain ⟨p, fz⟩ := wd
    cases fz <;> simp_all [Weak.second_pass_callback]
  · unfold Weak.drop
    split
    · rfl
    · split <;> simp [Event.isRunFinalizer]

/-- C6 witness: one pending finalizer, invoked once; the empty slot does
nothing. -/
theorem c6_finalizer_at_most_once_witness :
    (((Weak.second_pass_callback ⟨none, some 7⟩).2
        ++ (Weak.second_pass_callback
            (Weak.second_pass_callback ⟨none, some 7⟩).1).2).countP
        Event.isRunFinalizer ≤ 1)
    ∧ (⟨some 5, none⟩ : WeakData).finalizer = none
    ∧ Weak.second_pass_callback ⟨some 5, none⟩ = (⟨some 5, none⟩, []) :=
  ⟨(c6_finalizer_at_most_once ⟨none, some 7⟩ ⟨none, ⟨1⟩⟩).1, rfl,
    (c6_finalizer_at_most_once ⟨some 5, none⟩ ⟨none, ⟨1⟩⟩).2.1 rfl⟩

/-- C7 counterexample: it is not the case that from a freshly registered
finalizer (engine never disposing the instance), every run of the system can
be extended to one where the finalizer has run: dropping the still-bound
`Weak` first (a handle-layer operation) releases the registration and no
extension ever runs the finalizer. -/
theorem c7_counterexample :
    ¬ ∀ pre : List SysOp, SysOp.disposeInstance ∉ pre →
        ∃ ext : List SysOp, SysOp.disposeInstance ∉ ext ∧
          (sysRun (weakSysInit 5 7) (pre ++ ext)).ranFinalizer = true := by
  intro h
  obtain ⟨ext, -, hrun⟩ := h [SysOp.hostDrop] (by simp)
  have hfalse : (sysRun (weakSysInit 5 7) ([SysOp.hostDrop] ++ ext)).ranFinalizer
      = false := by
    show (sysRun (sysStep (weakSysInit 5 7) SysOp.hostDrop) ext).ranFinalizer = false
    exact sysRun_no_finalizer ext _ rfl rfl rfl
  rw [hfalse] at hrun
  cases hrun

/-- C7 (amended): a registered finalizer runs only via the engine's
second-phase callback: when the first-phase callback fires on the live
registration the second phase then runs it, but if the host drops the
still-bound `Weak` first, the registration is released and the finalizer
never runs thereafter — the handle layer's drop path does cancel a pending
(not yet in-flight) finalization. -/
theorem c7_finalizer_cancellation (d f : Nat) (ops : List SysOp) :
    (sysRun (weakSysInit d f) (SysOp.hostDrop :: ops)).ranFinalizer = false
    ∧ (sysRun (weakSysInit d f)
        [SysOp.enginePhase1, SysOp.enginePhase2]).ranFinalizer = true := by
  constructor
  · show (sysRun (sysStep (weakSysInit d f) SysOp.hostDrop) ops).ranFinalizer = false
    exact sysRun_no_finalizer ops _ rfl rfl rfl
  · rfl

/-- C8: every registered storage cell is released at most once: a `Global`'s
drop emits the reset call iff its isolate is not disposed; a `Weak`'s drop
emits the reset of cell `d` iff its isolate is not disposed and the pointer
slot still holds `d`; and after a successful first-phase callback (which took
the address and reset the cell), dropping the owning `Weak` emits no reset at
all. -/
theorem c8_release_at_most_once (g : Global) (w : Weak) (wd wd2 : WeakData)
    (evs : List Event) (d : Nat) :
    (Global.drop g = [Event.globalReset g.data] ↔ g.isolate_handle.ptr ≠ 0)
    ∧ (Event.globalReset d ∈ Weak.drop w
        ↔ w.isolate_handle.ptr ≠ 0 ∧ w.get_pointer = some d)
    ∧ (Weak.first_pass_callback wd = Except.ok (wd2, evs) →
        ∀ ih : IsolateHandle, Weak.drop ⟨some wd2, ih⟩ = []) := by
  refine ⟨?_, ?_, fun hfp ih => ?_⟩
  · unfold Global.drop
    split <;> simp_all
  · by_cases h0 : w.isolate_handle.ptr = 0
    · simp [Weak.drop, h0]
    · cases hp : w.get_pointer with
      | some a => simp [Weak.drop, h0, hp, eq_comm]
      | none => simp [Weak.drop, h0, hp]
  · obtain ⟨p, fz⟩ := wd
    cases p with
    | none => simp [Weak.first_pass_callback] at hfp
    | some a =>
      have hwd2 : wd2.pointer = none := by
        cases fz <;> simp [Weak.first_pass_callback] at hfp <;>
          simp [← hfp.1]
      simp [Weak.drop, Weak.get_pointer, hwd2]

/-- C8 witness: the cell reset by the first-phase callback is not reset again
on drop. -/
theorem c8_release_at_most_once_witness :
    Weak.first_pass_callback ⟨some 5, none⟩ = Except.ok (⟨none, none⟩, [Event.globalReset 5])
    ∧ Weak.drop ⟨some ⟨none, none⟩, ⟨1⟩⟩ = [] :=
  ⟨rfl,
    (c8_release_at_most_once ⟨5, ⟨1⟩⟩ ⟨none, ⟨1⟩⟩ ⟨some 5, none⟩ ⟨none, none⟩
      [Event.globalReset 5] 5).2.2 rfl ⟨1⟩⟩

/-- C9: `Weak::clone` re-registers a fresh weak binding to the source's
current address with NO finalizer in the new side record (even when the
source had one), and `Weak::clone_with_finalizer(f)` does the same but stores
`f`; on an empty source both yield an empty `Weak` with no engine call. -/
theorem c9_clone_no_finalizer (w : Weak) (r f d : Nat) :
    (w.get_pointer = some d →
      w.clone r = (⟨some ⟨some r, none⟩, w.isolate_handle⟩,
          [Event.globalNewWeak w.isolate_handle.ptr d])
      ∧ w.clone_with_finalizer f r = (⟨some ⟨some r, some f⟩, w.isolate_handle⟩,
          [Event.globalNewWeak w.isolate_handle.ptr d]))
    ∧ (w.get_pointer = none →
      w.clone r = (⟨none, w.isolate_handle⟩, [])
      ∧ w.clone_with_finalizer f r = (⟨none, w.isolate_handle⟩, [])) := by
  constructor <;> intro h <;>
    simp [Weak.clone, Weak.clone_with_finalizer, Weak.clone_raw, Weak.new_raw, h]

/-- C9 witness: cloning a bound `Weak` that carries finalizer 9 drops it;
cloning an empty `Weak` makes no engine call. -/
theorem c9_clone_no_finalizer_witness :
    (⟨some ⟨some 5, some 9⟩, ⟨1⟩⟩ : Weak).get_pointer = some 5
    ∧ (⟨none, ⟨1⟩⟩ : Weak).get_pointer = none
    ∧ (Weak.clone ⟨some ⟨some 5, some 9⟩, ⟨1⟩⟩ 8
        = (⟨some ⟨some 8, none⟩, ⟨1⟩⟩, [Event.globalNewWeak 1 5])
      ∧ Weak.clone_with_finalizer ⟨some ⟨some 5, some 9⟩, ⟨1⟩⟩ 6 8
        = (⟨some ⟨some 8, some 6⟩, ⟨1⟩⟩, [Event.globalNewWeak 1 5]))
    ∧ (Weak.clone ⟨none, ⟨1⟩⟩ 8 = (⟨none, ⟨1⟩⟩, [])
      ∧ Weak.clone_with_finalizer ⟨none, ⟨1⟩⟩ 6 8 = (⟨none, ⟨1⟩⟩, [])) :=
  ⟨rfl, rfl,
    (c9_clone_no_finalizer ⟨some ⟨some 5, some 9⟩, ⟨1⟩⟩ 8 6 5).1 rfl,
    (c9_clone_no_finalizer ⟨none, ⟨1⟩⟩ 8 6 5).2 rfl⟩

/-- C10: for two `Weak`s whose hosts match: both empty → equal; exactly one
empty → unequal; both bound → equal iff the pointees are equal under the
target type's equality; and an empty `Weak` is never equal to any bound
handle (`Local`/`Global` side), whatever `match_host` decides. -/
theorem c10_weak_equality (veq : Nat → Nat → Bool) (w1 w2 : Weak)
    (other : HandleInfo) (d1 d2 : Nat) (m : Bool)
    (hm : (HandleHost.of_isolate_handle w1.isolate_handle).match_host
        (HandleHost.of_isolate_handle w2.isolate_handle) none = Except.ok true) :
    (w1.get_pointer = none → w2.get_pointer = none →
      Weak.eq_weak veq w1 w2 = Except.ok true)
    ∧ (w1.get_pointer = none → w2.get_pointer = some d2 →
      Weak.eq_weak veq w1 w2 = Except.ok false)
    ∧ (w1.get_pointer = some d1 → w2.get_pointer = none →
      Weak.eq_weak veq w1 w2 = Except.ok false)
    ∧ (w1.get_pointer = some d1 → w2.get_pointer = some d2 →
      Weak.eq_weak veq w1 w2 = Except.ok (veq d1 d2))
    ∧ ((HandleHost.of_isolate_handle w1.isolate_handle).match_host other.host none
          = Except.ok m →
        w1.get_pointer = none → Weak.eq_handle veq w1 other = Except.ok false) := by
  refine ⟨fun h1 h2 => ?_, fun h1 h2 => ?_, fun h1 h2 => ?_, fun h1 h2 => ?_,
    fun hm2 h1 => ?_⟩
  · simp [Weak.eq_weak, hm, h1, h2]
  · simp [Weak.eq_weak, hm, h1, h2]
  · simp [Weak.eq_weak, hm, h1, h2]
  · simp [Weak.eq_weak, hm, h1, h2]
  · cases m <;> simp [Weak.eq_handle, hm2, h1]

/-- C10 witness: empty vs empty over the same live isolate, and empty `Weak`
against a scope-bound handle. -/
theorem c10_weak_equality_witness :
    (HandleHost.of_isolate_handle (⟨1⟩ : IsolateHandle)).match_host
        (HandleHost.of_isolate_handle (⟨1⟩ : IsolateHandle)) none = Except.ok true
    ∧ Weak.eq_weak (fun a b => a == b) ⟨none, ⟨1⟩⟩ ⟨none, ⟨1⟩⟩ = Except.ok true
    ∧ Weak.eq_handle (fun a b => a == b) ⟨none, ⟨1⟩⟩ ⟨7, HandleHost.Scope⟩
        = Except.ok false :=
  ⟨rfl,
    (c10_weak_equality (fun a b => a == b) ⟨none, ⟨1⟩⟩ ⟨none, ⟨1⟩⟩
      ⟨7, HandleHost.Scope⟩ 0 0 true rfl).1 rfl rfl,
    (c10_weak_equality (fun a b => a == b) ⟨none, ⟨1⟩⟩ ⟨none, ⟨1⟩⟩
      ⟨7, HandleHost.Scope⟩ 0 0 true rfl).2.2.2.2 rfl rfl⟩

end RustyV8
